import Mathlib

/-!
Verification development for the contact-book program `exercise_topic_12.py`.

The Python source is embedded shallowly:

* Python exceptions become the inductive `PyErr`; fallible operations return
  `Except PyErr _` (or a pair of a result and the post-state for code that
  mutates objects in place).
* `datetime.date` values become `PyDate` triples of naturals; `date.replace`
  and date subtraction are modelled on the proleptic Gregorian calendar with
  an explicit day-ordinal function, exactly the arithmetic `datetime` uses.
* `datetime.today()` is an impure clock read, so every function that calls it
  in the source takes `today : PyDate` as an explicit parameter instead.
* The `AddressBook` (a Python dict keyed by name) becomes an insertion-ordered
  association list; overwriting an existing key keeps its position, as dicts do.
* `str.isdigit` accepts every character whose Unicode numeric type is Digit or
  Decimal, not only ASCII digits.  The model `pyIsDigitChar` covers the ASCII
  digits together with the superscript digits U+00B9/U+00B2/U+00B3 as concrete
  representatives of the non-ASCII characters Python accepts.
* `date.strftime("%d.%m.%Y")` is modelled as zero-padded two-digit day and
  month and four-digit year, per the documented meaning of the directives.
-/

/-- Python exception kinds distinguished by the program's `input_error`
decorator.  `valueError` carries the exception message, since the decorator
interpolates it into the reply. -/
inductive PyErr where
  | valueError (msg : String)
  | keyError (key : String)
  | indexError
  | attributeError
  | typeError
deriving DecidableEq

deriving instance DecidableEq for Except

/-- Result-or-error test for `Except PyErr` values. -/
def exceptOk {α : Type} : Except PyErr α → Bool
  | .ok _ => true
  | .error _ => false

/-- A `datetime.date`: year, month, day. -/
structure PyDate where
  year : Nat
  month : Nat
  day : Nat
deriving DecidableEq

/-- Gregorian leap-year rule, as used by `datetime`. -/
def isLeapYear (y : Nat) : Bool :=
  (y % 4 == 0 && y % 100 != 0) || y % 400 == 0

/-- Length of month `m` (1..12) given whether the year is leap. -/
def monthLen (leap : Bool) (m : Nat) : Nat :=
  match m with
  | 1 => 31
  | 2 => if leap then 29 else 28
  | 3 => 31
  | 4 => 30
  | 5 => 31
  | 6 => 30
  | 7 => 31
  | 8 => 31
  | 9 => 30
  | 10 => 31
  | 11 => 30
  | 12 => 31
  | _ => 0

/-- Length of month `m` of year `y`. -/
def daysInMonth (y m : Nat) : Nat := monthLen (isLeapYear y) m

/-- Validity of a `datetime.date(y, m, d)` construction: `datetime` requires
`MINYEAR = 1 ≤ y ≤ MAXYEAR = 9999`, a month 1..12 and a day within the month. -/
def isValidDate (y m d : Nat) : Bool :=
  decide (1 ≤ y) && decide (y ≤ 9999) && decide (1 ≤ m) && decide (m ≤ 12) &&
    decide (1 ≤ d) && decide (d ≤ daysInMonth y m)

/-- Days of year `y` (leap flag `leap`) that lie strictly before month `m`. -/
def daysBeforeMonth (leap : Bool) : Nat → Nat
  | 0 => 0
  | 1 => 0
  | m + 1 => daysBeforeMonth leap m + monthLen leap m

/-- Proleptic-Gregorian day ordinal of a date (`date.toordinal` in `datetime`);
date subtraction `(a - b).days` is `toOrdinal a - toOrdinal b`. -/
def toOrdinal (dt : PyDate) : Nat :=
  365 * (dt.year - 1) + (dt.year - 1) / 4 - (dt.year - 1) / 100 + (dt.year - 1) / 400
    + daysBeforeMonth (isLeapYear dt.year) dt.month + dt.day

/-- Date comparison `a < b`: lexicographic on (year, month, day), which is how
`datetime.date` compares. -/
def dateLt (a b : PyDate) : Bool :=
  decide (a.year < b.year) ||
    (decide (a.year = b.year) &&
      (decide (a.month < b.month) ||
        (decide (a.month = b.month) && decide (a.day < b.day))))

/-- Model of `dt.replace(year=y)`: keeps month and day and re-validates the fields, so
it raises `ValueError` when the new year is out of range or the day does not
exist in the month of the new year (February 29 in a non-leap year). -/
def dateReplaceYear (dt : PyDate) (y : Nat) : Except PyErr PyDate :=
  if decide (y < 1) || decide (9999 < y) then
    .error (.valueError "year must be in 1..9999")
  else if decide (daysInMonth y dt.month < dt.day) then
    .error (.valueError "day is out of range for month")
  else
    .ok ⟨y, dt.month, dt.day⟩

/-- The `next_birthday` computation shared by `Record.days_to_birthday` and
`AddressBook.get_upcoming_birthdays` in the source: move the birthday to this
year, and if that date is strictly before `today`, to next year. -/
def nextBirthdayDate (b today : PyDate) : Except PyErr PyDate :=
  match dateReplaceYear b today.year with
  | .error e => .error e
  | .ok nb => if dateLt nb today then dateReplaceYear nb (today.year + 1) else .ok nb

/-- Character test `str.isdigit` used by `Phone._validate`, see the module comment:
ASCII digits plus the superscript digits as representatives of the further
Unicode characters Python's `isdigit` accepts. -/
def pyIsDigitChar (c : Char) : Bool :=
  c.isDigit || c == '¹' || c == '²' || c == '³'

/-- Python `s.isdigit()`: `s` is nonempty and every character is a digit. -/
def pyStrIsDigit (s : String) : Bool :=
  !s.data.isEmpty && s.data.all pyIsDigitChar

/-- Model of `Phone._validate(value)`: `value.isdigit() and len(value) == 10`. -/
def pyPhoneValidate (s : String) : Bool :=
  pyStrIsDigit s && decide (s.length = 10)

/-- Model of `Phone(value)`: validate, store the string, else raise `ValueError`. -/
def mkPhone (s : String) : Except PyErr String :=
  if pyPhoneValidate s then .ok s
  else .error (.valueError "Phone number must contain exactly 10 digits.")

/-- A `Record`: name, ordered phone list (each entry a validated phone string,
the `value` of a `Phone`), optional birthday. -/
structure Record where
  name : String
  phones : List String
  birthday : Option PyDate
deriving DecidableEq

/-- The loop of `Record.edit_phone` over the phone list: at the first entry
equal to `old_phone` construct `Phone(new_phone)` and replace it; if the loop
finishes without a match, raise `ValueError(f"Phone {old_phone} not found.")`. -/
def edit_phone_go (old_phone new_phone : String) : List String → Except PyErr (List String)
  | [] => .error (.valueError ("Phone " ++ old_phone ++ " not found."))
  | p :: rest =>
    if p = old_phone then
      match mkPhone new_phone with
      | .error e => .error e
      | .ok np => .ok (np :: rest)
    else
      match edit_phone_go old_phone new_phone rest with
      | .error e => .error e
      | .ok rest' => .ok (p :: rest')

/-- Model of `Record.edit_phone(old, new)`.  The pair is (raised-or-returned, record
after the call): the list is mutated only by the single assignment
`self.phones[i] = Phone(new_phone)`, which runs only after `Phone(new_phone)`
was constructed, so on every error path the record is the one passed in. -/
def Record.edit_phone (rec : Record) (old_phone new_phone : String) :
    Except PyErr Unit × Record :=
  match edit_phone_go old_phone new_phone rec.phones with
  | .ok ps => (.ok (), { rec with phones := ps })
  | .error e => (.error e, rec)

/-- Model of `Record.add_phone(phone)`: validate and append. -/
def Record.add_phone (rec : Record) (p : String) : Except PyErr Record :=
  match mkPhone p with
  | .ok v => .ok { rec with phones := rec.phones ++ [v] }
  | .error e => .error e

/-- Model of `Record.days_to_birthday` with the `datetime.today().date()` clock read
made an explicit parameter. -/
def Record.days_to_birthday (rec : Record) (today : PyDate) : Except PyErr (Option Int) :=
  match rec.birthday with
  | none => .ok none
  | some b =>
    match nextBirthdayDate b today with
    | .error e => .error e
    | .ok nb => .ok (some ((toOrdinal nb : Int) - (toOrdinal today : Int)))

/-- First-match replacement in a phone list; the reference behaviour that
`Record.edit_phone` is checked against. -/
def replaceFirst : List String → String → String → List String
  | [], _, _ => []
  | p :: rest, old_phone, new_phone =>
    if p = old_phone then new_phone :: rest else p :: replaceFirst rest old_phone new_phone

/-- The `AddressBook`'s underlying dict: an insertion-ordered association list
from names to records. -/
abbrev AddressBook := List (String × Record)

/-- Dict assignment `self.data[k] = v`: overwrite in place if the key is
present (keeping its position, as Python dicts do), else append. -/
def dictSet : AddressBook → String → Record → AddressBook
  | [], k, v => [(k, v)]
  | (k', v') :: rest, k, v =>
    if k' = k then (k, v) :: rest else (k', v') :: dictSet rest k v

/-- Model of `AddressBook.add_record(record)`: `self.data[record.name.value] = record`. -/
def add_record (book : AddressBook) (rec : Record) : AddressBook :=
  dictSet book rec.name rec

/-- Model of `AddressBook.find(name)`: `self.data.get(name)`. -/
def find : AddressBook → String → Option Record
  | [], _ => none
  | (k, v) :: rest, name => if k = name then some v else find rest name

/-- Model of `AddressBook.delete(name)`: `del self.data[name]` guarded by a membership
test, so removing an absent name is a no-op. -/
def delete : AddressBook → String → AddressBook
  | [], _ => []
  | (k, v) :: rest, name => if k = name then rest else (k, v) :: delete rest name

/-- The keys of the book, in insertion order. -/
def bookKeys (book : AddressBook) : List String := book.map Prod.fst

/-- How many entries of the book are stored under name `n`. -/
def countName (book : AddressBook) (n : String) : Nat :=
  book.countP (fun e => e.1 == n)

/-- Numeric value of a digit character. -/
def digitVal (c : Char) : Nat := c.toNat - 48

/-- Digit character for a value `0..9`. -/
def digitChar (n : Nat) : Char := Char.ofNat (48 + n)

/-- Value of a string of digit characters, most significant first. -/
def toVal (l : List Char) : Nat := l.foldl (fun a c => 10 * a + digitVal c) 0

/-- Zero-padded two-digit decimal rendering (`%d`, `%m`). -/
def pad2 (n : Nat) : List Char := [digitChar (n / 10 % 10), digitChar (n % 10)]

/-- Zero-padded four-digit decimal rendering (`%Y`). -/
def pad4 (n : Nat) : List Char :=
  [digitChar (n / 1000 % 10), digitChar (n / 100 % 10), digitChar (n / 10 % 10), digitChar (n % 10)]

/-- Model of `dt.strftime("%d.%m.%Y")`. -/
def renderDate (dt : PyDate) : String :=
  ⟨pad2 dt.day ++ '.' :: pad2 dt.month ++ '.' :: pad4 dt.year⟩

/-- Model of `AddressBook.get_upcoming_birthdays` with the clock read made explicit:
walk the records in insertion order, for each stored birthday compute this
year's (or next year's) occurrence, and collect `(name, occurrence)` for the
records whose occurrence is at most 7 days away.  A `ValueError` raised by
`date.replace` on any record aborts the whole call, as in the source. -/
def get_upcoming_birthdays (book : AddressBook) (today : PyDate) :
    Except PyErr (List (String × String)) :=
  match book with
  | [] => .ok []
  | (_, rec) :: rest =>
    match rec.birthday with
    | none => get_upcoming_birthdays rest today
    | some b =>
      match nextBirthdayDate b today with
      | .error e => .error e
      | .ok nb =>
        match get_upcoming_birthdays rest today with
        | .error e => .error e
        | .ok l =>
          .ok (if 0 ≤ (toOrdinal nb : Int) - (toOrdinal today : Int) ∧
                  (toOrdinal nb : Int) - (toOrdinal today : Int) ≤ 7 then
                (rec.name, renderDate nb) :: l
              else l)

/-- Whether `nextBirthdayDate` succeeds for a record (vacuously so without a
birthday); the per-record success hypothesis of the upcoming-birthday theorem. -/
def recNextOk (rec : Record) (today : PyDate) : Bool :=
  match rec.birthday with
  | none => true
  | some b => exceptOk (nextBirthdayDate b today)

/-- The specification-side reading of the upcoming-birthday query: keep, in
stored order, the records whose `days_to_birthday` value lies in `0..7`, each
rendered as the pair of its name and its next birthday occurrence. -/
def upcomingSpec (book : AddressBook) (today : PyDate) : List (String × String) :=
  book.filterMap fun e =>
    match e.2.days_to_birthday today, e.2.birthday with
    | .ok (some d), some b =>
      if 0 ≤ d ∧ d ≤ 7 then
        match nextBirthdayDate b today with
        | .ok nb => some (e.2.name, renderDate nb)
        | .error _ => none
      else none
    | _, _ => none

/-- Digit test and conversion for a token of date digits. -/
def mkDMY (dt mt yt : List Char) : Option (Nat × Nat × Nat) :=
  if dt.all Char.isDigit && mt.all Char.isDigit && yt.all Char.isDigit then
    some (toVal dt, toVal mt, toVal yt)
  else none

/-- Shape analysis of `strptime(value, "%d.%m.%Y")`: `%d` and `%m` match one
or two digit characters, `%Y` exactly four, with literal dots between, and the
whole string must be consumed.  The numeric range checks of the `strptime`
regular expression are subsumed by the `datetime.date` field validation that
follows in `parseBirthday`. -/
def pyParseDMY (cs : List Char) : Option (Nat × Nat × Nat) :=
  match cs with
  | [a1, a2, '.', b1, b2, '.', y1, y2, y3, y4] => mkDMY [a1, a2] [b1, b2] [y1, y2, y3, y4]
  | [a, '.', b1, b2, '.', y1, y2, y3, y4] => mkDMY [a] [b1, b2] [y1, y2, y3, y4]
  | [a1, a2, '.', b, '.', y1, y2, y3, y4] => mkDMY [a1, a2] [b] [y1, y2, y3, y4]
  | [a, '.', b, '.', y1, y2, y3, y4] => mkDMY [a] [b] [y1, y2, y3, y4]
  | _ => none

/-- Model of `Birthday(value)`: `datetime.strptime(value, "%d.%m.%Y").date()`, with any
parse or field failure re-raised as `ValueError("Invalid date format. Use
DD.MM.YYYY")`. -/
def parseBirthday (s : String) : Except PyErr PyDate :=
  match pyParseDMY s.data with
  | some (d, m, y) =>
    if isValidDate y m d then .ok ⟨y, m, d⟩
    else .error (.valueError "Invalid date format. Use DD.MM.YYYY")
  | none => .error (.valueError "Invalid date format. Use DD.MM.YYYY")

/-- Model of `Record.add_birthday(bday)`: parse and overwrite the stored birthday. -/
def Record.add_birthday (rec : Record) (s : String) : Except PyErr Record :=
  match parseBirthday s with
  | .ok dt => .ok { rec with birthday := some dt }
  | .error e => .error e

/-- A string of the exact shape `DD.MM.YYYY` (two digits, dot, two digits,
dot, four digits) denoting a real calendar date. -/
def matchesDDMMYYYY (s : String) : Bool :=
  match s.data with
  | [d1, d2, c1, m1, m2, c2, y1, y2, y3, y4] =>
    (c1 == '.') && (c2 == '.') && [d1, d2, m1, m2, y1, y2, y3, y4].all Char.isDigit &&
      isValidDate (toVal [y1, y2, y3, y4]) (toVal [m1, m2]) (toVal [d1, d2])
  | _ => false

/-- The `input_error` decorator: run the handler and map each exception kind
to its reply string. -/
def input_error : Except PyErr String → String
  | .ok s => s
  | .error (.valueError m) => "Error: " ++ m
  | .error .indexError => "Error: Not enough arguments. Please check your command format."
  | .error (.keyError _) => "Error: Contact not found."
  | .error .attributeError => "Error: Contact not found. Please add it first."
  | .error .typeError => "Error: Incorrect command format. Try again."

/-- Replace the record stored under `name` (first occurrence), modelling an
in-place mutation of the record object held by the book. -/
def bookSetRecord : AddressBook → String → Record → AddressBook
  | [], _, _ => []
  | (k, v) :: rest, name, r =>
    if k = name then (k, r) :: rest else (k, v) :: bookSetRecord rest name r

/-- Message of the `ValueError` raised by `a, b, *_ = args` style unpacking
when fewer than `n` values are available. -/
def unpackAtLeastMsg (n got : Nat) : String :=
  "not enough values to unpack (expected at least " ++ toString n ++ ", got " ++
    toString got ++ ")"

/-- Message of the `ValueError` raised by `a, b = args` when `args` does not
have exactly two elements. -/
def unpackExactTwoMsg (got : Nat) : String :=
  if got < 2 then "not enough values to unpack (expected 2, got " ++ toString got ++ ")"
  else "too many values to unpack (expected 2)"

/-- Body of `add_contact(args, book)` before the decorator.  `name, phone, *_
= args` raises `ValueError` when fewer than two arguments are given; a record
is created and inserted before the phone is validated, and `if phone:` skips
an empty phone string. -/
def add_contact_body (args : List String) (book : AddressBook) :
    Except PyErr String × AddressBook :=
  match args with
  | name :: phone :: _ =>
    match find book name with
    | none =>
      let book1 := add_record book ⟨name, [], none⟩
      if phone = "" then (.ok "Contact added.", book1)
      else
        match Record.add_phone ⟨name, [], none⟩ phone with
        | .ok r' => (.ok "Contact added.", bookSetRecord book1 name r')
        | .error e => (.error e, book1)
    | some r =>
      if phone = "" then (.ok "Contact updated.", book)
      else
        match Record.add_phone r phone with
        | .ok r' => (.ok "Contact updated.", bookSetRecord book name r')
        | .error e => (.error e, book)
  | _ => (.error (.valueError (unpackAtLeastMsg 2 args.length)), book)

/-- Handler `add_contact` as the dispatcher sees it: body plus `input_error`. -/
def add_contact (args : List String) (book : AddressBook) : String × AddressBook :=
  ((input_error (add_contact_body args book).1), (add_contact_body args book).2)

/-- Body of `change_contact(args, book)`: `name, old_phone, new_phone, *_ =
args` raises `ValueError` on fewer than three arguments; calling `edit_phone`
on the `None` returned by a failed `find` raises `AttributeError`. -/
def change_contact_body (args : List String) (book : AddressBook) :
    Except PyErr String × AddressBook :=
  match args with
  | name :: old_phone :: new_phone :: _ =>
    match find book name with
    | none => (.error .attributeError, book)
    | some r =>
      match Record.edit_phone r old_phone new_phone with
      | (.ok _, r') => (.ok "Phone updated.", bookSetRecord book name r')
      | (.error e, r') => (.error e, bookSetRecord book name r')
  | _ => (.error (.valueError (unpackAtLeastMsg 3 args.length)), book)

/-- Handler `change_contact` with the decorator. -/
def change_contact (args : List String) (book : AddressBook) : String × AddressBook :=
  ((input_error (change_contact_body args book).1), (change_contact_body args book).2)

/-- Body of `show_phone(args, book)`: `args[0]` raises `IndexError` when no
argument is given; reading `.phones` of a `None` record raises
`AttributeError`. -/
def show_phone_body (args : List String) (book : AddressBook) :
    Except PyErr String × AddressBook :=
  match args with
  | [] => (.error .indexError, book)
  | name :: _ =>
    match find book name with
    | none => (.error .attributeError, book)
    | some r => (.ok (String.intercalate ", " r.phones), book)

/-- Handler `show_phone` with the decorator. -/
def show_phone (args : List String) (book : AddressBook) : String × AddressBook :=
  ((input_error (show_phone_body args book).1), (show_phone_body args book).2)

/-- Body of `add_birthday(args, book)`: `name, bday = args` needs exactly two
arguments; an absent record is created and inserted before the date is parsed. -/
def add_birthday_body (args : List String) (book : AddressBook) :
    Except PyErr String × AddressBook :=
  match args with
  | [name, bday] =>
    match find book name with
    | none =>
      let book1 := add_record book ⟨name, [], none⟩
      match Record.add_birthday ⟨name, [], none⟩ bday with
      | .ok r' => (.ok ("Birthday added for " ++ name), bookSetRecord book1 name r')
      | .error e => (.error e, book1)
    | some r =>
      match Record.add_birthday r bday with
      | .ok r' => (.ok ("Birthday added for " ++ name), bookSetRecord book name r')
      | .error e => (.error e, book)
  | _ => (.error (.valueError (unpackExactTwoMsg args.length)), book)

/-- Handler `add_birthday` with the decorator. -/
def add_birthday (args : List String) (book : AddressBook) : String × AddressBook :=
  ((input_error (add_birthday_body args book).1), (add_birthday_body args book).2)

/-- Body of `show_birthday(args, book)`: `args[0]` raises `IndexError` on no
arguments; both a `None` record and a `None` birthday raise `AttributeError`
when their attributes are read. -/
def show_birthday_body (args : List String) (book : AddressBook) :
    Except PyErr String × AddressBook :=
  match args with
  | [] => (.error .indexError, book)
  | name :: _ =>
    match find book name with
    | none => (.error .attributeError, book)
    | some r =>
      match r.birthday with
      | none => (.error .attributeError, book)
      | some b => (.ok (renderDate b), book)

/-- Handler `show_birthday` with the decorator. -/
def show_birthday (args : List String) (book : AddressBook) : String × AddressBook :=
  ((input_error (show_birthday_body args book).1), (show_birthday_body args book).2)

/-! ## Helper lemmas -/

theorem exceptOk_iff {α : Type} (x : Except PyErr α) :
    exceptOk x = true ↔ ∃ v, x = .ok v := by
  cases x <;> simp [exceptOk]

theorem string_ext {a b : String} (h : a.data = b.data) : a = b := by
  cases a; cases b; simp_all

theorem digit_toNat_bounds (c : Char) (h : c.isDigit = true) :
    48 ≤ c.toNat ∧ c.toNat ≤ 57 := by
  simp [Char.isDigit] at h
  exact h

theorem digitChar_digitVal (c : Char) (h : c.isDigit = true) :
    digitChar (digitVal c) = c := by
  obtain ⟨h1, _⟩ := digit_toNat_bounds c h
  have : 48 + digitVal c = c.toNat := by
    unfold digitVal
    omega
  rw [digitChar, this, Char.ofNat_toNat]

/-! ## C1: phone validation -/

/-- C1, counterexample: the claim says `Phone` validation succeeds only on
strings of exactly 10 ASCII digits, but Python's `str.isdigit` also accepts
other Unicode digit characters: the 10-character string of superscript twos
passes validation while none of its characters is an ASCII digit. -/
theorem phone_validate_not_ascii_only :
    pyPhoneValidate "²²²²²²²²²²" = true ∧
      ("²²²²²²²²²²" : String).data.all Char.isDigit = false := by
  decide

/-- C1, amended: `Phone` validation succeeds exactly on strings of length 10
all of whose characters are Python digit characters (the Unicode digit test of
`str.isdigit`); in particular it succeeds on every string of 10 ASCII digits,
and fails on every string whose length differs from 10 or that contains a
character that is not a Python digit. -/
theorem phone_validate_amended (s : String) :
    (pyPhoneValidate s = true ↔ s.length = 10 ∧ s.data.all pyIsDigitChar = true) ∧
      (s.length = 10 → s.data.all Char.isDigit = true → pyPhoneValidate s = true) := by
  have hlen : s.length = s.data.length := rfl
  constructor
  · constructor
    · intro h
      simp [pyPhoneValidate, pyStrIsDigit] at h
      exact ⟨h.2, List.all_eq_true.mpr h.1.2⟩
    · rintro ⟨h1, h2⟩
      have hne : s.data ≠ [] := by
        intro hnil
        rw [hlen, hnil] at h1
        simp at h1
      simp [pyPhoneValidate, pyStrIsDigit, h1, h2, hne]
  · intro h1 h2
    have h2' : s.data.all pyIsDigitChar = true := by
      rw [List.all_eq_true] at h2 ⊢
      intro c hc
      simp [pyIsDigitChar, h2 c hc]
    have hne : s.data ≠ [] := by
      intro hnil
      rw [hlen, hnil] at h1
      simp at h1
    simp [pyPhoneValidate, pyStrIsDigit, h1, h2', hne]

/-- C1, witness: the amended theorem applied to a concrete 10-ASCII-digit
string. -/
theorem phone_validate_amended_witness : pyPhoneValidate "0123456789" = true :=
  (phone_validate_amended "0123456789").2 (by decide) (by decide)

/-! ## C2: days_to_birthday totality -/

/-- C2: evaluation of the code at the failing input.  For a stored birthday of
February 29, 2000 and today January 15, 2025 (a non-leap year),
`days_to_birthday` does not return an integer: `birthday.value.replace(year=
2025)` raises `ValueError("day is out of range for month")`. -/
theorem days_to_birthday_feb29_raises :
    (Record.mk "Leap" [] (some ⟨2000, 2, 29⟩)).days_to_birthday ⟨2025, 1, 15⟩ =
      .error (.valueError "day is out of range for month") := by
  decide

/-! ## C7: days_to_birthday values -/

/-- C7: `days_to_birthday` counts the days to the next occurrence of the
birthday's month/day on or after today.  For birthday 01.01.2000 it returns 1
on 31.12.2024 and 0 on 01.01.2025, and in general it returns 0 whenever
today's month and day equal the birthday's. -/
theorem days_to_birthday_next_occurrence :
    (Record.mk "A" [] (some ⟨2000, 1, 1⟩)).days_to_birthday ⟨2024, 12, 31⟩ = .ok (some 1) ∧
    (Record.mk "A" [] (some ⟨2000, 1, 1⟩)).days_to_birthday ⟨2025, 1, 1⟩ = .ok (some 0) ∧
    ∀ (nm : String) (ps : List String) (b today : PyDate),
      isValidDate today.year today.month today.day = true →
      b.month = today.month → b.day = today.day →
      (Record.mk nm ps (some b)).days_to_birthday today = .ok (some 0) := by
  refine ⟨by decide, by decide, ?_⟩
  intro nm ps b today hv hm hd
  rw [isValidDate] at hv
  simp only [Bool.and_eq_true, decide_eq_true_eq] at hv
  obtain ⟨⟨⟨⟨⟨hy1, hy2⟩, hm1⟩, hm2⟩, hd1⟩, hd2⟩ := hv
  have hrep : dateReplaceYear b today.year = .ok today := by
    rw [dateReplaceYear]
    have c1 : (decide (today.year < 1) || decide (9999 < today.year)) = false := by
      simp only [Bool.or_eq_false_iff, decide_eq_false_iff_not, not_lt]
      omega
    rw [c1]
    simp only [Bool.false_eq_true, if_false]
    have c2 : decide (daysInMonth today.year b.month < b.day) = false := by
      rw [hm, hd]
      simp only [decide_eq_false_iff_not, not_lt]
      omega
    rw [c2]
    simp only [Bool.false_eq_true, if_false]
    rw [hm, hd]
  have hlt : dateLt today today = false := by
    simp [dateLt]
  rw [Record.days_to_birthday]
  simp only [nextBirthdayDate, hrep, hlt, Bool.false_eq_true, if_false]
  simp

/-- C7, witness: the general same-day clause of the theorem at a concrete
record and date. -/
theorem days_to_birthday_next_occurrence_witness :
    (Record.mk "A" [] (some ⟨1990, 6, 15⟩)).days_to_birthday ⟨2025, 6, 15⟩ = .ok (some 0) :=
  days_to_birthday_next_occurrence.2.2 "A" [] ⟨1990, 6, 15⟩ ⟨2025, 6, 15⟩
    (by decide) rfl rfl

/-! ## Dictionary lemmas and C4 -/

theorem find_dictSet_self (book : AddressBook) (k : String) (v : Record) :
    find (dictSet book k v) k = some v := by
  induction book with
  | nil => simp [dictSet, find]
  | cons e rest ih =>
    obtain ⟨k', v'⟩ := e
    by_cases h : k' = k
    · simp [dictSet, h, find]
    · simp [dictSet, h, find, ih]

theorem dictSet_cons_eq (k : String) (v : Record) (k' : String) (v' : Record)
    (rest : AddressBook) (h : k' = k) :
    dictSet ((k', v') :: rest) k v = (k, v) :: rest := by
  simp [dictSet, h]

theorem dictSet_cons_ne (k : String) (v : Record) (k' : String) (v' : Record)
    (rest : AddressBook) (h : ¬k' = k) :
    dictSet ((k', v') :: rest) k v = (k', v') :: dictSet rest k v := by
  simp [dictSet, h]

theorem mem_map_fst_dictSet (book : AddressBook) (k : String) (v : Record)
    (x : String) (hx : x ≠ k) :
    x ∈ (dictSet book k v).map Prod.fst ↔ x ∈ book.map Prod.fst := by
  induction book with
  | nil => simp [dictSet, hx]
  | cons e rest ih =>
    obtain ⟨k', v'⟩ := e
    by_cases h : k' = k
    · subst h
      rw [dictSet_cons_eq _ _ _ _ _ rfl]
      simp [hx]
    · rw [dictSet_cons_ne _ _ _ _ _ h]
      simp only [List.map_cons, List.mem_cons]
      rw [ih]

theorem nodup_map_fst_dictSet (book : AddressBook) (k : String) (v : Record)
    (h : (book.map Prod.fst).Nodup) :
    ((dictSet book k v).map Prod.fst).Nodup := by
  induction book with
  | nil => simp [dictSet]
  | cons e rest ih =>
    obtain ⟨k', v'⟩ := e
    simp only [List.map_cons, List.nodup_cons] at h
    obtain ⟨hnm, hnd⟩ := h
    by_cases hk : k' = k
    · subst hk
      rw [dictSet_cons_eq _ _ _ _ _ rfl]
      simp only [List.map_cons, List.nodup_cons]
      exact ⟨hnm, hnd⟩
    · rw [dictSet_cons_ne _ _ _ _ _ hk]
      simp only [List.map_cons, List.nodup_cons]
      refine ⟨?_, ih hnd⟩
      rw [mem_map_fst_dictSet rest k v k' hk]
      exact hnm

theorem countName_eq_zero_of_not_mem (book : AddressBook) (n : String)
    (h : n ∉ book.map Prod.fst) : countName book n = 0 := by
  rw [countName, List.countP_eq_zero]
  intro e he
  simp only [beq_iff_eq]
  intro hh
  exact h (List.mem_map.mpr ⟨e, he, hh⟩)

theorem countName_dictSet_self (book : AddressBook) (k : String) (v : Record)
    (h : (book.map Prod.fst).Nodup) :
    countName (dictSet book k v) k = 1 := by
  induction book with
  | nil => simp [dictSet, countName]
  | cons e rest ih =>
    obtain ⟨k', v'⟩ := e
    simp only [List.map_cons, List.nodup_cons] at h
    obtain ⟨hnm, hnd⟩ := h
    by_cases hk : k' = k
    · subst hk
      rw [dictSet_cons_eq _ _ _ _ _ rfl]
      rw [countName, List.countP_cons]
      have h0 : countName rest k' = 0 := countName_eq_zero_of_not_mem rest k' hnm
      rw [countName] at h0
      simp [h0]
    · rw [dictSet_cons_ne _ _ _ _ _ hk]
      rw [countName, List.countP_cons]
      have ihh := ih hnd
      rw [countName] at ihh
      simp [ihh, hk]

theorem delete_sublist (book : AddressBook) (n : String) :
    (delete book n).Sublist book := by
  induction book with
  | nil => simp [delete]
  | cons e rest ih =>
    obtain ⟨k, v⟩ := e
    rw [delete]
    by_cases h : k = n
    · simp only [h, if_pos rfl]
      exact List.sublist_cons_self (n, v) rest
    · simp only [h, if_false]
      exact List.Sublist.cons₂ (k, v) ih

/-- C4: `add_record` stores the record under its name, overwriting any
existing entry and never failing (it is a total function); it and `delete`
preserve the at-most-one-record-per-name invariant, and after adding two
records with the same name exactly one entry is stored under that name. -/
theorem add_record_upsert (book : AddressBook) (rec : Record)
    (h : (bookKeys book).Nodup) :
    find (add_record book rec) rec.name = some rec ∧
      (bookKeys (add_record book rec)).Nodup ∧
      (∀ n, (bookKeys (delete book n)).Nodup) ∧
      (∀ rec' : Record, rec'.name = rec.name →
        countName (add_record (add_record book rec) rec') rec.name = 1) := by
  refine ⟨find_dictSet_self book rec.name rec,
          nodup_map_fst_dictSet book rec.name rec h, ?_, ?_⟩
  · intro n
    have hsub : ((delete book n).map Prod.fst).Sublist (book.map Prod.fst) :=
      List.Sublist.map Prod.fst (delete_sublist book n)
    exact List.Nodup.sublist hsub h
  · intro rec' hname
    rw [add_record, add_record, ← hname]
    exact countName_dictSet_self (dictSet book rec'.name rec) rec'.name rec'
      (nodup_map_fst_dictSet book rec'.name rec h)

/-- C4, witness: the theorem at a concrete one-entry book and record. -/
theorem add_record_upsert_witness :
    find (add_record [("b", ⟨"b", [], none⟩)] ⟨"a", [], none⟩) "a" =
      some ⟨"a", [], none⟩ :=
  (add_record_upsert [("b", ⟨"b", [], none⟩)] ⟨"a", [], none⟩ (by decide)).1

/-! ## edit_phone lemmas, C5 and C9 -/

theorem edit_phone_go_not_found (old_phone new_phone : String) (l : List String)
    (h : old_phone ∉ l) :
    edit_phone_go old_phone new_phone l =
      .error (.valueError ("Phone " ++ old_phone ++ " not found.")) := by
  induction l with
  | nil => rw [edit_phone_go]
  | cons p rest ih =>
    rw [List.mem_cons] at h
    push_neg at h
    obtain ⟨h1, h2⟩ := h
    rw [edit_phone_go]
    have : ¬p = old_phone := fun hh => h1 hh.symm
    rw [if_neg this, ih h2]

theorem edit_phone_go_replace (old_phone new_phone : String) (l : List String)
    (h : old_phone ∈ l) (hv : pyPhoneValidate new_phone = true) :
    edit_phone_go old_phone new_phone l = .ok (replaceFirst l old_phone new_phone) := by
  induction l with
  | nil => simp at h
  | cons p rest ih =>
    rw [edit_phone_go, replaceFirst]
    by_cases hp : p = old_phone
    · rw [if_pos hp, if_pos hp, mkPhone, if_pos hv]
    · rw [List.mem_cons] at h
      have hmem : old_phone ∈ rest := by
        cases h with
        | inl hh => exact absurd hh.symm hp
        | inr hh => exact hh
      rw [if_neg hp, if_neg hp, ih hmem]

theorem edit_phone_go_invalid (old_phone new_phone : String) (l : List String)
    (h : old_phone ∈ l) (hv : pyPhoneValidate new_phone = false) :
    edit_phone_go old_phone new_phone l =
      .error (.valueError "Phone number must contain exactly 10 digits.") := by
  induction l with
  | nil => simp at h
  | cons p rest ih =>
    rw [edit_phone_go]
    by_cases hp : p = old_phone
    · rw [if_pos hp, mkPhone, if_neg (by rw [hv]; exact Bool.false_ne_true)]
    · rw [List.mem_cons] at h
      have hmem : old_phone ∈ rest := by
        cases h with
        | inl hh => exact absurd hh.symm hp
        | inr hh => exact hh
      rw [if_neg hp, ih hmem]

/-- C5: `edit_phone(old, new)` replaces the first phone equal to `old` with
the validated `new`; when no phone equals `old` it raises
`ValueError(f"Phone {old} not found.")` leaving the record unchanged, and when
a phone matches but `new` fails validation it raises the phone validator's
`ValueError` leaving the record unchanged. -/
theorem edit_phone_spec (rec : Record) (old_phone new_phone : String) :
    (old_phone ∈ rec.phones → pyPhoneValidate new_phone = true →
      rec.edit_phone old_phone new_phone =
        (.ok (), { rec with phones := replaceFirst rec.phones old_phone new_phone })) ∧
    (old_phone ∉ rec.phones →
      rec.edit_phone old_phone new_phone =
        (.error (.valueError ("Phone " ++ old_phone ++ " not found.")), rec)) ∧
    (old_phone ∈ rec.phones → pyPhoneValidate new_phone = false →
      rec.edit_phone old_phone new_phone =
        (.error (.valueError "Phone number must contain exactly 10 digits."), rec)) := by
  refine ⟨?_, ?_, ?_⟩
  · intro h hv
    rw [Record.edit_phone, edit_phone_go_replace old_phone new_phone rec.phones h hv]
  · intro h
    rw [Record.edit_phone, edit_phone_go_not_found old_phone new_phone rec.phones h]
  · intro h hv
    rw [Record.edit_phone, edit_phone_go_invalid old_phone new_phone rec.phones h hv]

/-- C5, witness: the theorem's clauses at the record of the specification's
example. -/
theorem edit_phone_spec_witness :
    (Record.mk "x" ["1111111111"] none).edit_phone "1111111111" "2222222222" =
      (.ok (), ⟨"x", ["2222222222"], none⟩) := by
  have h := (edit_phone_spec ⟨"x", ["1111111111"], none⟩ "1111111111" "2222222222").1
    (by decide) (by decide)
  rw [h]
  decide

/-- C9: when `edit_phone` fails, the record's phone list is unchanged (the
single list assignment runs only after the replacement `Phone` is
constructed), and the search for `old` precedes the validation of `new`: with
no matching phone the raised error is the phone-not-found `ValueError`,
whatever the `new` string is — in particular even when `new` is itself an
invalid phone string. -/
theorem edit_phone_failure_state (rec : Record) (old_phone new_phone : String) :
    (∀ e : PyErr, (rec.edit_phone old_phone new_phone).1 = .error e →
      (rec.edit_phone old_phone new_phone).2 = rec) ∧
    (old_phone ∉ rec.phones →
      (rec.edit_phone old_phone new_phone).1 =
        .error (.valueError ("Phone " ++ old_phone ++ " not found."))) := by
  constructor
  · intro e he
    rw [Record.edit_phone] at he ⊢
    cases hgo : edit_phone_go old_phone new_phone rec.phones with
    | ok ps => rw [hgo] at he; exact absurd he (by simp)
    | error e' => rfl
  · intro h
    rw [Record.edit_phone, edit_phone_go_not_found old_phone new_phone rec.phones h]

/-- C9, witness: a failed edit (unknown old phone, invalid new phone) raises
the phone-not-found error and leaves the record as it was. -/
theorem edit_phone_failure_state_witness :
    ((Record.mk "x" ["1111111111"] none).edit_phone "9999999999" "12").1 =
        .error (.valueError "Phone 9999999999 not found.") ∧
      ((Record.mk "x" ["1111111111"] none).edit_phone "9999999999" "12").2 =
        ⟨"x", ["1111111111"], none⟩ := by
  have h := edit_phone_failure_state ⟨"x", ["1111111111"], none⟩ "9999999999" "12"
  exact ⟨h.2 (by decide), h.1 (.valueError "Phone 9999999999 not found.") (h.2 (by decide))⟩

/-! ## C10: add before validate -/

/-- C10: for the `add` command with a name absent from the book and a nonempty
phone string that fails validation, the handler replies with the phone
validator's message, yet the book now holds a fresh record under that name
with no phones and no birthday: the insertion performed before the phone
validation is not rolled back. -/
theorem add_contact_inserts_before_validation (name phone : String)
    (book : AddressBook) (h1 : find book name = none) (h2 : phone ≠ "")
    (h3 : pyPhoneValidate phone = false) :
    (add_contact [name, phone] book).1 =
        "Error: Phone number must contain exactly 10 digits." ∧
      find (add_contact [name, phone] book).2 name = some ⟨name, [], none⟩ := by
  have hbody : add_contact_body [name, phone] book =
      (.error (.valueError "Phone number must contain exactly 10 digits."),
        add_record book ⟨name, [], none⟩) := by
    rw [add_contact_body]
    rw [h1]
    rw [if_neg h2]
    rw [Record.add_phone, mkPhone, if_neg (by rw [h3]; exact Bool.false_ne_true)]
  rw [add_contact, hbody]
  exact ⟨rfl, find_dictSet_self book name ⟨name, [], none⟩⟩

/-- C10, witness: the theorem at a concrete empty book. -/
theorem add_contact_inserts_before_validation_witness :
    (add_contact ["alice", "12"] []).1 =
        "Error: Phone number must contain exactly 10 digits." ∧
      find (add_contact ["alice", "12"] []).2 "alice" = some ⟨"alice", [], none⟩ :=
  add_contact_inserts_before_validation "alice" "12" [] (by decide) (by decide) (by decide)

/-! ## C6: dispatcher error translation -/

/-- C6, counterexample: `add` invoked with one argument does not reply with
the "not enough arguments" message.  The tuple unpacking `name, phone, *_ =
args` raises `ValueError`, not `IndexError`, so the decorator interpolates the
unpacking message instead. -/
theorem add_missing_args_message :
    (add_contact ["alice"] []).1 =
        "Error: not enough values to unpack (expected at least 2, got 1)" ∧
      (add_contact ["alice"] ([] : AddressBook)).1 ≠
        "Error: Not enough arguments. Please check your command format." := by
  constructor
  · decide
  · decide

/-- C6, amended: the replies of the command handlers.  With too few
arguments, the index-based handlers `phone` and `show-birthday` reply with the
"not enough arguments" message (from `IndexError`), while the unpacking-based
handlers `add`, `change` and `add-birthday` reply with the text of the
unpacking `ValueError`; a domain validation failure replies with "Error: "
followed by the validator's message; operating on a contact that is not in the
book replies "Error: Contact not found. Please add it first." (from
`AttributeError`); and every handler reply is produced by the `input_error`
translation, so no error escapes the dispatcher. -/
theorem dispatcher_error_translation :
    (∀ (args : List String) (book : AddressBook), args.length ≤ 1 →
      (add_contact args book).1 = "Error: " ++ unpackAtLeastMsg 2 args.length) ∧
    (∀ (args : List String) (book : AddressBook), args.length ≤ 2 →
      (change_contact args book).1 = "Error: " ++ unpackAtLeastMsg 3 args.length) ∧
    (∀ (args : List String) (book : AddressBook), args.length ≠ 2 →
      (add_birthday args book).1 = "Error: " ++ unpackExactTwoMsg args.length) ∧
    (∀ book : AddressBook,
      (show_phone [] book).1 =
        "Error: Not enough arguments. Please check your command format.") ∧
    (∀ book : AddressBook,
      (show_birthday [] book).1 =
        "Error: Not enough arguments. Please check your command format.") ∧
    (∀ (name old_phone new_phone : String) (t : List String) (book : AddressBook),
      find book name = none →
      (change_contact (name :: old_phone :: new_phone :: t) book).1 =
        "Error: Contact not found. Please add it first.") ∧
    (∀ (name : String) (t : List String) (book : AddressBook),
      find book name = none →
      (show_phone (name :: t) book).1 =
        "Error: Contact not found. Please add it first.") ∧
    (∀ (name old_phone new_phone : String) (t : List String) (book : AddressBook)
      (r : Record), find book name = some r → old_phone ∈ r.phones →
      pyPhoneValidate new_phone = false →
      (change_contact (name :: old_phone :: new_phone :: t) book).1 =
        "Error: Phone number must contain exactly 10 digits.") := by
  refine ⟨?_, ?_, ?_, ?_, ?_, ?_, ?_, ?_⟩
  · intro args book hlen
    rcases args with _ | ⟨a, args⟩
    · rfl
    rcases args with _ | ⟨b, args⟩
    · rfl
    · simp at hlen
  · intro args book hlen
    rcases args with _ | ⟨a, args⟩
    · rfl
    rcases args with _ | ⟨b, args⟩
    · rfl
    rcases args with _ | ⟨c, args⟩
    · rfl
    · simp at hlen
  · intro args book hlen
    rcases args with _ | ⟨a, args⟩
    · rfl
    rcases args with _ | ⟨b, args⟩
    · rfl
    rcases args with _ | ⟨c, args⟩
    · simp at hlen
    · rfl
  · intro book
    rfl
  · intro book
    rfl
  · intro name old_phone new_phone t book hfind
    simp only [change_contact, change_contact_body, hfind]
    rfl
  · intro name t book hfind
    simp only [show_phone, show_phone_body, hfind]
    rfl
  · intro name old_phone new_phone t book r hfind hmem hv
    have hedit : r.edit_phone old_phone new_phone =
        (.error (.valueError "Phone number must contain exactly 10 digits."), r) := by
      rw [Record.edit_phone, edit_phone_go_invalid old_phone new_phone r.phones hmem hv]
    simp only [change_contact, change_contact_body, hfind, hedit]
    rfl

/-- C6, witness: the validator-message clause at a concrete book whose record
holds the old phone while the new phone is invalid. -/
theorem dispatcher_error_translation_witness :
    (change_contact ["bob", "1111111111", "12x"]
        [("bob", ⟨"bob", ["1111111111"], none⟩)]).1 =
      "Error: Phone number must contain exactly 10 digits." :=
  dispatcher_error_translation.2.2.2.2.2.2.2 "bob" "1111111111" "12x" []
    [("bob", ⟨"bob", ["1111111111"], none⟩)] ⟨"bob", ["1111111111"], none⟩
    (by decide) (by decide) (by decide)

/-! ## C3: upcoming birthdays -/

/-- C3, counterexample: the claim promises a result list for every book and
date, but a stored February 29 birthday makes `get_upcoming_birthdays` raise
the `ValueError` of `date.replace` in a non-leap year instead of returning a
list. -/
theorem get_upcoming_birthdays_feb29_aborts :
    get_upcoming_birthdays [("Leap", ⟨"Leap", [], some ⟨2000, 2, 29⟩⟩)] ⟨2025, 1, 15⟩ =
      .error (.valueError "day is out of range for month") := by
  decide

/-- C3, amended: provided the next-occurrence computation succeeds for every
stored birthday (which can only fail for a February 29 birthday against a
non-leap year), `get_upcoming_birthdays` returns exactly the records whose
`days_to_birthday` value lies between 0 and 7 inclusive, as (name, next
occurrence) pairs in the stored (insertion) order. -/
theorem get_upcoming_birthdays_spec (book : AddressBook) (today : PyDate)
    (h : book.all (fun e => recNextOk e.2 today) = true) :
    get_upcoming_birthdays book today = .ok (upcomingSpec book today) := by
  induction book with
  | nil => rfl
  | cons e rest ih =>
    obtain ⟨k, rec⟩ := e
    rw [List.all_cons, Bool.and_eq_true] at h
    obtain ⟨h1, h2⟩ := h
    have ihh := ih h2
    cases hb : rec.birthday with
    | none =>
      simp only [get_upcoming_birthdays, hb, ihh, upcomingSpec, List.filterMap_cons,
        Record.days_to_birthday]
    | some b =>
      simp only [recNextOk, hb] at h1
      obtain ⟨nb, hnb⟩ := (exceptOk_iff (nextBirthdayDate b today)).mp h1
      by_cases hc : (0 ≤ (toOrdinal nb : Int) - (toOrdinal today : Int) ∧
          (toOrdinal nb : Int) - (toOrdinal today : Int) ≤ 7)
      · simp only [get_upcoming_birthdays, hb, hnb, ihh, upcomingSpec,
          List.filterMap_cons, Record.days_to_birthday, if_pos hc]
      · simp only [get_upcoming_birthdays, hb, hnb, ihh, upcomingSpec,
          List.filterMap_cons, Record.days_to_birthday, if_neg hc]

/-- C3, witness: a book whose first record's next birthday occurrence is 3
days away (included) and whose second is 8 days away (excluded). -/
theorem get_upcoming_birthdays_spec_witness :
    get_upcoming_birthdays
        [("A", ⟨"A", [], some ⟨1990, 1, 18⟩⟩), ("B", ⟨"B", [], some ⟨1990, 1, 23⟩⟩)]
        ⟨2025, 1, 15⟩ = .ok [("A", "18.01.2025")] := by
  have h := get_upcoming_birthdays_spec
      [("A", ⟨"A", [], some ⟨1990, 1, 18⟩⟩), ("B", ⟨"B", [], some ⟨1990, 1, 23⟩⟩)]
      ⟨2025, 1, 15⟩ (by decide)
  rw [h]
  decide

/-! ## C8: birthday parse/render round trip -/

theorem toVal_pair (c1 c2 : Char) :
    toVal [c1, c2] = 10 * digitVal c1 + digitVal c2 := by
  rw [toVal]
  simp [List.foldl]

theorem toVal_quad (c1 c2 c3 c4 : Char) :
    toVal [c1, c2, c3, c4] =
      1000 * digitVal c1 + 100 * digitVal c2 + 10 * digitVal c3 + digitVal c4 := by
  rw [toVal]
  simp [List.foldl]
  ring

theorem pad2_toVal (c1 c2 : Char) (h1 : c1.isDigit = true) (h2 : c2.isDigit = true) :
    pad2 (toVal [c1, c2]) = [c1, c2] := by
  obtain ⟨l1, u1⟩ := digit_toNat_bounds c1 h1
  obtain ⟨l2, u2⟩ := digit_toNat_bounds c2 h2
  rw [toVal_pair, pad2]
  have e1 : (10 * digitVal c1 + digitVal c2) / 10 % 10 = digitVal c1 := by
    unfold digitVal
    omega
  have e2 : (10 * digitVal c1 + digitVal c2) % 10 = digitVal c2 := by
    unfold digitVal
    omega
  rw [e1, e2, digitChar_digitVal c1 h1, digitChar_digitVal c2 h2]

theorem pad4_toVal (c1 c2 c3 c4 : Char) (h1 : c1.isDigit = true)
    (h2 : c2.isDigit = true) (h3 : c3.isDigit = true) (h4 : c4.isDigit = true) :
    pad4 (toVal [c1, c2, c3, c4]) = [c1, c2, c3, c4] := by
  obtain ⟨l1, u1⟩ := digit_toNat_bounds c1 h1
  obtain ⟨l2, u2⟩ := digit_toNat_bounds c2 h2
  obtain ⟨l3, u3⟩ := digit_toNat_bounds c3 h3
  obtain ⟨l4, u4⟩ := digit_toNat_bounds c4 h4
  rw [toVal_quad, pad4]
  have e1 : (1000 * digitVal c1 + 100 * digitVal c2 + 10 * digitVal c3 + digitVal c4)
      / 1000 % 10 = digitVal c1 := by
    unfold digitVal
    omega
  have e2 : (1000 * digitVal c1 + 100 * digitVal c2 + 10 * digitVal c3 + digitVal c4)
      / 100 % 10 = digitVal c2 := by
    unfold digitVal
    omega
  have e3 : (1000 * digitVal c1 + 100 * digitVal c2 + 10 * digitVal c3 + digitVal c4)
      / 10 % 10 = digitVal c3 := by
    unfold digitVal
    omega
  have e4 : (1000 * digitVal c1 + 100 * digitVal c2 + 10 * digitVal c3 + digitVal c4)
      % 10 = digitVal c4 := by
    unfold digitVal
    omega
  rw [e1, e2, e3, e4, digitChar_digitVal c1 h1, digitChar_digitVal c2 h2,
    digitChar_digitVal c3 h3, digitChar_digitVal c4 h4]

/-- C8: on every string of the exact shape `DD.MM.YYYY` denoting a real
calendar date, `Birthday` construction succeeds, and rendering the parsed
date with `strftime("%d.%m.%Y")` yields the original string again. -/
theorem birthday_parse_render_roundtrip (s : String) (h : matchesDDMMYYYY s = true) :
    ∃ dt : PyDate, parseBirthday s = .ok dt ∧ renderDate dt = s := by
  obtain ⟨l⟩ := s
  rcases l with _ | ⟨d1, l⟩
  · simp [matchesDDMMYYYY] at h
  rcases l with _ | ⟨d2, l⟩
  · simp [matchesDDMMYYYY] at h
  rcases l with _ | ⟨c1, l⟩
  · simp [matchesDDMMYYYY] at h
  rcases l with _ | ⟨m1, l⟩
  · simp [matchesDDMMYYYY] at h
  rcases l with _ | ⟨m2, l⟩
  · simp [matchesDDMMYYYY] at h
  rcases l with _ | ⟨c2, l⟩
  · simp [matchesDDMMYYYY] at h
  rcases l with _ | ⟨y1, l⟩
  · simp [matchesDDMMYYYY] at h
  rcases l with _ | ⟨y2, l⟩
  · simp [matchesDDMMYYYY] at h
  rcases l with _ | ⟨y3, l⟩
  · simp [matchesDDMMYYYY] at h
  rcases l with _ | ⟨y4, l⟩
  · simp [matchesDDMMYYYY] at h
  rcases l with _ | ⟨x, t⟩
  swap
  · simp [matchesDDMMYYYY] at h
  simp only [matchesDDMMYYYY, Bool.and_eq_true, beq_iff_eq, List.all_cons,
    List.all_nil, Bool.and_true] at h
  obtain ⟨⟨⟨hc1, hc2⟩, hdig⟩, hval⟩ := h
  subst hc1
  subst hc2
  obtain ⟨h1, h2, h3, h4, h5, h6, h7, h8⟩ := hdig
  refine ⟨⟨toVal [y1, y2, y3, y4], toVal [m1, m2], toVal [d1, d2]⟩, ?_, ?_⟩
  · have hcond : ([d1, d2].all Char.isDigit && [m1, m2].all Char.isDigit &&
        [y1, y2, y3, y4].all Char.isDigit) = true := by
      simp [h1, h2, h3, h4, h5, h6, h7, h8]
    have hp : pyParseDMY [d1, d2, '.', m1, m2, '.', y1, y2, y3, y4] =
        some (toVal [d1, d2], toVal [m1, m2], toVal [y1, y2, y3, y4]) := by
      simp only [pyParseDMY, mkDMY]
      rw [if_pos hcond]
    simp only [parseBirthday]
    rw [hp]
    simp [hval]
  · rw [renderDate]
    apply string_ext
    show pad2 (toVal [d1, d2]) ++ '.' :: pad2 (toVal [m1, m2]) ++ '.' ::
      pad4 (toVal [y1, y2, y3, y4]) = [d1, d2, '.', m1, m2, '.', y1, y2, y3, y4]
    rw [pad2_toVal d1 d2 h1 h2, pad2_toVal m1 m2 h3 h4, pad4_toVal y1 y2 y3 y4 h5 h6 h7 h8]
    rfl

/-- C8, witness: the round trip at the concrete leap-day string. -/
theorem birthday_parse_render_roundtrip_witness :
    parseBirthday "29.02.2000" = .ok ⟨2000, 2, 29⟩ ∧
      renderDate ⟨2000, 2, 29⟩ = "29.02.2000" := by
  obtain ⟨dt, hp, hr⟩ := birthday_parse_render_roundtrip "29.02.2000" (by decide)
  have e : (Except.ok dt : Except PyErr PyDate) = .ok (⟨2000, 2, 29⟩ : PyDate) := by
    rw [← hp]
    decide
  injection e with e'
  subst e'
  exact ⟨hp, hr⟩
